import Mathlib

/-!
Shallow embedding of `src/scripts/generateMetrics.ts` (nf-core-statistics).

Timestamps are modelled as integers: seconds since the Unix epoch, UTC
(the GitHub API delivers whole-second ISO timestamps and the CI runner is
UTC, so luxon's `DateTime` arithmetic on them is plain integer arithmetic).
JS `Set`s are modelled as insertion-ordered duplicate-free lists, JS objects
(`Record<string, T>`) as insertion-ordered association lists, which matches
JS enumeration order for the non-index string keys this script uses.
-/

/-- Seconds since the Unix epoch, UTC. -/
abbrev Timestamp := Int

/-- One pull request or issue as the script consumes it: the only fields
`generateMetrics.ts` reads are `user?.login`, `created_at` and `closed_at`. -/
structure GithubPullOrIssue where
  user : Option String
  created_at : Timestamp
  closed_at : Option Timestamp
deriving DecidableEq, Repr

/-- `PAST_DAYS_FOR_METRICS = 30` (line 24). -/
def PAST_DAYS_FOR_METRICS : Int := 30

/-- The fixed deny-list inside `isContributorABot` (line 55). -/
def botAccounts : List String := ["snyk-bot"]

/-- JS `String.prototype.endsWith`, modelled on the character list (so that
it also evaluates inside the kernel). -/
def strEndsWith (s post : String) : Bool :=
  s.data.reverse.take post.data.length == post.data.reverse

/-- `isContributorABot` (lines 54-58): literal suffix "[bot]" or the deny-list. -/
def isContributorABot (contributor : String) : Bool :=
  strEndsWith contributor "[bot]" || decide (contributor ∈ botAccounts)

/-- Gregorian calendar date (year, month, day) of the day `z` days after
1970-01-01: Howard Hinnant's civil-from-days algorithm. Used to recover the
calendar fields luxon exposes on a parsed `DateTime`. -/
def civilFromDays (z : Int) : Int × Int × Int :=
  let zd := z + 719468
  let era := zd.fdiv 146097
  let doe := zd - era * 146097
  let yoe := (doe - doe / 1460 + doe / 36524 - doe / 146096) / 365
  let y := yoe + era * 400
  let doy := doe - (365 * yoe + yoe / 4 - yoe / 100)
  let mp := (5 * doy + 2) / 153
  let d := doy - (153 * mp + 2) / 5 + 1
  let m := mp + (if mp < 10 then 3 else -9)
  (y + (if m ≤ 2 then 1 else 0), m, d)

/-- Days after 1970-01-01 of the calendar date (y, m, d): Hinnant's
days-from-civil algorithm (inverse of `civilFromDays`). -/
def daysFromCivil (y m d : Int) : Int :=
  let yy := y - (if m ≤ 2 then 1 else 0)
  let era := yy.fdiv 400
  let yoe := yy - era * 400
  let doy := (153 * (m + (if 2 < m then -3 else 9)) + 2) / 5 + d - 1
  let doe := yoe * 365 + yoe / 4 - yoe / 100 + doy
  era * 146097 + doe - 719468

/-- The epoch day a timestamp falls on. -/
def epochDayOf (t : Timestamp) : Int := t.fdiv 86400

/-- Calendar year of an epoch day: luxon's `DateTime.year`. -/
def yearOfEpochDay (z : Int) : Int := (civilFromDays z).1

/-- ISO weekday of an epoch day, Monday = 1 .. Sunday = 7
(1970-01-01 was a Thursday). -/
def isoWeekday (z : Int) : Int := (z + 3).emod 7 + 1

/-- Gregorian leap year. -/
def isLeapYear (y : Int) : Bool :=
  (y.emod 4 == 0 && y.emod 100 != 0) || y.emod 400 == 0

/-- Number of ISO weeks in a year: 53 when Jan 1 is a Thursday, or a
Wednesday of a leap year; else 52. -/
def isoWeeksInYear (y : Int) : Int :=
  let wd := isoWeekday (daysFromCivil y 1 1)
  if wd == 4 || (isLeapYear y && wd == 3) then 53 else 52

/-- Ordinal day of the year (Jan 1 = 1) of an epoch day. -/
def ordinalDay (z : Int) : Int := z - daysFromCivil (yearOfEpochDay z) 1 1 + 1

/-- ISO week number of an epoch day: luxon's `DateTime.weekNumber`. -/
def isoWeekNumber (z : Int) : Int :=
  let y := yearOfEpochDay z
  let w := (ordinalDay z - isoWeekday z + 10).fdiv 7
  if w < 1 then isoWeeksInYear (y - 1)
  else if isoWeeksInYear y < w then 1
  else w

/-- ISO week-numbering year of an epoch day: luxon's `DateTime.weekYear`.
The script does NOT use this; it is here to state what the spec's
"(isoYear, isoWeek)" bucket key would be. -/
def isoWeekYear (z : Int) : Int :=
  let y := yearOfEpochDay z
  let w := (ordinalDay z - isoWeekday z + 10).fdiv 7
  if w < 1 then y - 1
  else if isoWeeksInYear y < w then y + 1
  else y

/-- `getBucketKey` (lines 137-140): the template string
`dateTime.year : dateTime.weekNumber`, i.e. the CALENDAR year paired with
the ISO week number. -/
def getBucketKey (pullOrIssue : GithubPullOrIssue) : String :=
  let z := epochDayOf pullOrIssue.created_at
  toString (yearOfEpochDay z) ++ ":" ++ toString (isoWeekNumber z)

/-- The bucket key as the spec words it (section 3): ISO week-numbering year
paired with ISO week number, rendered in the same string format. -/
def specIsoBucketKey (t : Timestamp) : String :=
  let z := epochDayOf t
  toString (isoWeekYear z) ++ ":" ++ toString (isoWeekNumber z)

/-- `isPullOrIssueWithinMetricsRange` (lines 127-132):
`now.diff(created_at, "days").days < PAST_DAYS_FOR_METRICS`, a strict
comparison of the (possibly fractional) day difference, equivalent in
seconds to `now - created_at < 30 * 86400`. -/
def isPullOrIssueWithinMetricsRange (now : Timestamp)
    (pullOrIssue : GithubPullOrIssue) : Bool :=
  decide (now - pullOrIssue.created_at < PAST_DAYS_FOR_METRICS * 86400)

/-- `getSecondsToClose` (lines 165-171): `closed_at - created_at` in seconds
when `closed_at` is present, `undefined` (none) otherwise. -/
def getSecondsToClose (pullOrIssue : GithubPullOrIssue) : Option Int :=
  pullOrIssue.closed_at.map (fun closedAt => closedAt - pullOrIssue.created_at)

/-- JS truthiness of the optional number guarding the sample push
(`if (isPullInRange && secondsToClose)`): `undefined` and `0` are falsy. -/
def numberTruthy : Option Int → Bool
  | none => false
  | some v => v != 0

/-- The mutable metric stores of `main` (lines 116-121). -/
structure MetricStores where
  namesOfContributors : List String
  namesOfRecentContributors : List String
  secondsToClosePulls : List Int
  secondsToCloseIssues : List Int
  bucketPullCount : List (String × Nat)
  bucketNewContributors : List (String × List String)
deriving DecidableEq, Repr

/-- All six stores start empty. -/
def initialStores : MetricStores :=
  { namesOfContributors := []
    namesOfRecentContributors := []
    secondsToClosePulls := []
    secondsToCloseIssues := []
    bucketPullCount := []
    bucketNewContributors := [] }

/-- JS `Set.add`: append only when absent (insertion order preserved). -/
def setAdd (s : List String) (x : String) : List String :=
  if x ∈ s then s else s ++ [x]

/-- `bucketPullCount[key] = bucketPullCount[key] || 0; bucketPullCount[key]++`
(lines 181-182) on the association-list model of the record. -/
def bumpCount : List (String × Nat) → String → List (String × Nat)
  | [], k => [(k, 1)]
  | (q, n) :: rest, k =>
    if q = k then (q, n + 1) :: rest else (q, n) :: bumpCount rest k

/-- Reading `bucketPullCount[key] || 0`. -/
def countForKey : List (String × Nat) → String → Nat
  | [], _ => 0
  | (q, n) :: rest, k => if q = k then n else countForKey rest k

/-- `bucketNewContributors[bucketKey] = bucketNewContributors[bucketKey] || new Set()`
(lines 149-150): materialize the bucket (empty) when the key is new. -/
def ensureBucket (m : List (String × List String)) (k : String) :
    List (String × List String) :=
  if k ∈ m.map Prod.fst then m else m ++ [(k, [])]

/-- The scan of every existing bucket's set (lines 152-156). -/
def anyBucketHas (m : List (String × List String)) (c : String) : Bool :=
  m.any (fun p => decide (c ∈ p.2))

/-- `bucketNewContributors[bucketKey].add(contributor)` (line 158). -/
def addToBucket (m : List (String × List String)) (k c : String) :
    List (String × List String) :=
  m.map (fun p => if p.1 = k then (p.1, setAdd p.2 c) else p)

/-- `addNewContributorToBucket` (lines 145-159): ensure the bucket exists,
return early if ANY bucket already holds the contributor, else insert. -/
def addNewContributorToBucket (m : List (String × List String))
    (bucketKey contributor : String) : List (String × List String) :=
  let m1 := ensureBucket m bucketKey
  if anyBucketHas m1 contributor then m1 else addToBucket m1 bucketKey contributor

/-- `getPullMetrics` (lines 176-197) as a state transformer over the stores;
`now` is the `DateTime.now()` the range check reads. -/
def getPullMetrics (now : Timestamp) (pull : GithubPullOrIssue)
    (s : MetricStores) : MetricStores :=
  let key := getBucketKey pull
  let secondsToClose := getSecondsToClose pull
  let isPullInRange := isPullOrIssueWithinMetricsRange now pull
  let s1 := { s with bucketPullCount := bumpCount s.bucketPullCount key }
  let s2 :=
    if isPullInRange && numberTruthy secondsToClose then
      { s1 with secondsToClosePulls := s1.secondsToClosePulls ++ [secondsToClose.getD 0] }
    else s1
  match pull.user with
  | none => s2
  | some login =>
    if isContributorABot login then s2
    else
      let s3 := { s2 with
        bucketNewContributors := addNewContributorToBucket s2.bucketNewContributors key login }
      if isPullInRange then
        { s3 with namesOfRecentContributors := setAdd s3.namesOfRecentContributors login }
      else
        { s3 with namesOfContributors := setAdd s3.namesOfContributors login }

/-- `getIssueMetrics` (lines 202-220): like `getPullMetrics` but without the
pull-count bump, pushing to the issue sample list. -/
def getIssueMetrics (now : Timestamp) (issue : GithubPullOrIssue)
    (s : MetricStores) : MetricStores :=
  let key := getBucketKey issue
  let secondsToClose := getSecondsToClose issue
  let isIssueInRange := isPullOrIssueWithinMetricsRange now issue
  let s2 :=
    if isIssueInRange && numberTruthy secondsToClose then
      { s with secondsToCloseIssues := s.secondsToCloseIssues ++ [secondsToClose.getD 0] }
    else s
  match issue.user with
  | none => s2
  | some login =>
    if isContributorABot login then s2
    else
      let s3 := { s2 with
        bucketNewContributors := addNewContributorToBucket s2.bucketNewContributors key login }
      if isIssueInRange then
        { s3 with namesOfRecentContributors := setAdd s3.namesOfRecentContributors login }
      else
        { s3 with namesOfContributors := setAdd s3.namesOfContributors login }

/-- One record of the sequential fetch loop (lines 222-296): the item and
whether it came from the pulls stream (true) or the issues stream (false). -/
def processOne (now : Timestamp) (s : MetricStores)
    (it : GithubPullOrIssue × Bool) : MetricStores :=
  if it.2 then getPullMetrics now it.1 s else getIssueMetrics now it.1 s

/-- One whole metrics run: every streamed item folded over the empty stores,
in stream order. -/
def processAll (now : Timestamp) (items : List (GithubPullOrIssue × Bool)) :
    MetricStores :=
  items.foldl (processOne now) initialStores

/-- One step of the final `namesOfRecentContributors.forEach` (lines 322-328):
a name already known is deleted from the recent set, otherwise it is added to
the known set (and stays in the recent set). -/
def finalizeStep : List String × List String → String → List String × List String
  | (known, recent), name =>
    if name ∈ known then (known, recent.erase name) else (known ++ [name], recent)

/-- The whole finalization pass: the `forEach` visits the recent names in
insertion order (nothing is ever inserted during the pass, and only the name
being visited is ever deleted, so iterating the initial list is faithful). -/
def finalizeContributors (known recent : List String) :
    List String × List String :=
  recent.foldl finalizeStep (known, recent)

/-- The non-bot author the script tracks for an item, if any
(`pull.user?.login && !isContributorABot(pull.user?.login)`). -/
def itemNonBotAuthor (it : GithubPullOrIssue) : Option String :=
  match it.user with
  | none => none
  | some login => if isContributorABot login then none else some login

/-- All non-bot authors seen during a run, in stream order. -/
def nonBotAuthors (items : List (GithubPullOrIssue × Bool)) : List String :=
  items.filterMap (fun it => itemNonBotAuthor it.1)

/-- What `addNewContributorToBucket` does to the contributor-related stores
of one item, extracted for reasoning. -/
def contribUpdate (now : Timestamp) (it : GithubPullOrIssue)
    (known recent : List String) : List String × List String :=
  match itemNonBotAuthor it with
  | none => (known, recent)
  | some login =>
    if isPullOrIssueWithinMetricsRange now it then (known, setAdd recent login)
    else (setAdd known login, recent)

/-- How many buckets hold a given author. -/
def authorBucketCount (m : List (String × List String)) (c : String) : Nat :=
  m.countP (fun p => decide (c ∈ p.2))

/-- Well-formedness the bucket map keeps across a run: keys are distinct and
every author sits in at most one bucket's set. -/
def BucketsWF (m : List (String × List String)) : Prop :=
  (m.map Prod.fst).Nodup ∧ ∀ c : String, authorBucketCount m c ≤ 1

/-- Insertion sort step for integer samples. -/
def insertLeInt (x : Int) : List Int → List Int
  | [] => [x]
  | y :: ys => if x ≤ y then x :: y :: ys else y :: insertLeInt x ys

/-- Ascending sort of integer samples. -/
def sortInts (l : List Int) : List Int := l.foldr insertLeInt []

/-- Modelled from the spec: the Statistics Reducer's 50th percentile (the
`percentile` npm package, whose code is not part of this repository),
nearest-rank on the ascending sort; an empty collection yields an absent
statistic. -/
def percentile50 (samples : List Int) : Option Int :=
  let sorted := sortInts samples
  sorted.get? ((sorted.length + 1) / 2 - 1)

/-- Modelled from the spec: the Statistics Reducer's arithmetic mean
(`lodash.mean`, whose code is not part of this repository; on an empty list
it yields NaN, which the snapshot serializes as an absent value, modelled as
none). -/
def meanOf (samples : List Int) : Option Rat :=
  if samples.length = 0 then none
  else some ((samples.foldl (fun a b => a + b) 0 : Int) / (samples.length : Rat))

/-- `Object.values(bucketPullCount)` (line 311). -/
def pullCountsOf (s : MetricStores) : List Int :=
  s.bucketPullCount.map (fun p => (p.2 : Int))

/-- `Object.values(bucketNewContributors).map(c => c.size)` (lines 312-314). -/
def newContributorCounts (m : List (String × List String)) : List Int :=
  m.map (fun p => (p.2.length : Int))

/-- The serialized snapshot record (lines 330-347). -/
structure MetricsSnapshot where
  namesOfAdopters : List String
  namesOfContributors : List String
  namesOfContributorsNew : List String
  numberOfPullRequestNew : Nat
  p50NumberOfNewPullsPerWeek : Option Int
  p50NumberOfNewContributorsPerWeek : Option Int
  p50SecondsToClosePulls : Option Int
  p50SecondsToCloseIssues : Option Int
  meanNumberOfNewPullsPerWeek : Option Rat
  meanNumberOfNewContributorsPerWeek : Option Rat
  meanSecondsToClosePulls : Option Rat
  meanSecondsToCloseIssues : Option Rat
deriving DecidableEq, Repr

/-- Lines 306-347 of `main`: compute the summary statistics from the stores,
run the contributor finalization pass, and assemble the snapshot. -/
def buildSnapshot (s : MetricStores) (adopterList : List String) : MetricsSnapshot :=
  let final := finalizeContributors s.namesOfContributors s.namesOfRecentContributors
  { namesOfAdopters := adopterList
    namesOfContributors := final.1
    namesOfContributorsNew := final.2
    numberOfPullRequestNew := s.secondsToClosePulls.length
    p50NumberOfNewPullsPerWeek := percentile50 (pullCountsOf s)
    p50NumberOfNewContributorsPerWeek := percentile50 (newContributorCounts s.bucketNewContributors)
    p50SecondsToClosePulls := percentile50 s.secondsToClosePulls
    p50SecondsToCloseIssues := percentile50 s.secondsToCloseIssues
    meanNumberOfNewPullsPerWeek := meanOf (pullCountsOf s)
    meanNumberOfNewContributorsPerWeek := meanOf (newContributorCounts s.bucketNewContributors)
    meanSecondsToClosePulls := meanOf s.secondsToClosePulls
    meanSecondsToCloseIssues := meanOf s.secondsToCloseIssues }

/-- The adopter record: the one field `getAdopterList` reads. -/
structure Contributor where
  full_name : String
deriving DecidableEq, Repr

/-- Insertion sort step for the adopter names. -/
def insertLeStr (x : String) : List String → List String
  | [] => [x]
  | y :: ys => if x ≤ y then x :: y :: ys else y :: insertLeStr x ys

/-- `Array.from(adopters).sort()`. -/
def sortStrings (l : List String) : List String := l.foldr insertLeStr []

/-- `new Set(...)` over a list of names: deduplicate, keeping first occurrences. -/
def dedupKeepFirst (l : List String) : List String := l.foldl setAdd []

/-- `getAdopterList` (lines 79-93). The `fetch` and `response.text()` calls
stand BEFORE the try block, so a rejected fetch propagates (error); only
`yaml.load` and the field extraction are inside the try, which degrades any
parse failure to an empty list. -/
def getAdopterList (fetched : Except String String)
    (parseYaml : String → Except String (List Contributor)) :
    Except String (List String) :=
  match fetched with
  | .error e => .error e
  | .ok content =>
    match parseYaml content with
    | .error _ => .ok []
    | .ok contributors =>
      .ok (sortStrings (dedupKeepFirst (contributors.map Contributor.full_name)))

/-- The tail of `main` (lines 298-347): the adopter phase (`withAdopterList ?
await getAdopterList() : []`) followed by snapshot assembly. A rejected
`getAdopterList` propagates out of `main`, so no snapshot is produced. -/
def runAdopterPhaseAndSnapshot (withAdopterList : Bool)
    (fetched : Except String String)
    (parseYaml : String → Except String (List Contributor))
    (s : MetricStores) : Except String MetricsSnapshot :=
  match (if withAdopterList then getAdopterList fetched parseYaml else .ok []) with
  | .error e => .error e
  | .ok adopterList => .ok (buildSnapshot s adopterList)

/-! ### Helper lemmas -/

theorem setAdd_mem (s : List String) (a x : String) :
    x ∈ setAdd s a ↔ x ∈ s ∨ x = a := by
  unfold setAdd
  by_cases h : a ∈ s
  · rw [if_pos h]
    exact ⟨Or.inl, fun hx => hx.elim id (fun e => e ▸ h)⟩
  · rw [if_neg h]
    simp

theorem setAdd_nodup (s : List String) (a : String) (h : s.Nodup) :
    (setAdd s a).Nodup := by
  unfold setAdd
  by_cases ha : a ∈ s
  · rwa [if_pos ha]
  · rw [if_neg ha]
    simp [List.nodup_append, h, ha]

theorem countForKey_bumpCount (m : List (String × Nat)) (k : String) :
    countForKey (bumpCount m k) k = countForKey m k + 1 := by
  induction m with
  | nil => simp [bumpCount, countForKey]
  | cons p rest ih =>
    obtain ⟨q, n⟩ := p
    by_cases hq : q = k
    · simp [bumpCount, countForKey, hq]
    · simp [bumpCount, countForKey, hq, ih]

theorem getPullMetrics_names (now : Timestamp) (pull : GithubPullOrIssue)
    (s : MetricStores) :
    ((getPullMetrics now pull s).namesOfContributors,
     (getPullMetrics now pull s).namesOfRecentContributors) =
      contribUpdate now pull s.namesOfContributors s.namesOfRecentContributors := by
  rcases pull with ⟨u, ca, cl⟩
  cases u with
  | none =>
    by_cases hg : (isPullOrIssueWithinMetricsRange now ⟨none, ca, cl⟩ &&
        numberTruthy (getSecondsToClose ⟨none, ca, cl⟩)) = true <;>
      simp [getPullMetrics, contribUpdate, itemNonBotAuthor, hg]
  | some login =>
    by_cases hb : isContributorABot login = true <;>
      by_cases hr : isPullOrIssueWithinMetricsRange now ⟨some login, ca, cl⟩ = true <;>
        by_cases hg : numberTruthy (getSecondsToClose ⟨some login, ca, cl⟩) = true <;>
          simp [getPullMetrics, contribUpdate, itemNonBotAuthor, hb, hr, hg]

theorem getIssueMetrics_names (now : Timestamp) (issue : GithubPullOrIssue)
    (s : MetricStores) :
    ((getIssueMetrics now issue s).namesOfContributors,
     (getIssueMetrics now issue s).namesOfRecentContributors) =
      contribUpdate now issue s.namesOfContributors s.namesOfRecentContributors := by
  rcases issue with ⟨u, ca, cl⟩
  cases u with
  | none =>
    by_cases hg : (isPullOrIssueWithinMetricsRange now ⟨none, ca, cl⟩ &&
        numberTruthy (getSecondsToClose ⟨none, ca, cl⟩)) = true <;>
      simp [getIssueMetrics, contribUpdate, itemNonBotAuthor, hg]
  | some login =>
    by_cases hb : isContributorABot login = true <;>
      by_cases hr : isPullOrIssueWithinMetricsRange now ⟨some login, ca, cl⟩ = true <;>
        by_cases hg : numberTruthy (getSecondsToClose ⟨some login, ca, cl⟩) = true <;>
          simp [getIssueMetrics, contribUpdate, itemNonBotAuthor, hb, hr, hg]

theorem processOne_names (now : Timestamp) (it : GithubPullOrIssue × Bool)
    (s : MetricStores) :
    ((processOne now s it).namesOfContributors,
     (processOne now s it).namesOfRecentContributors) =
      contribUpdate now it.1 s.namesOfContributors s.namesOfRecentContributors := by
  unfold processOne
  by_cases h : it.2
  · rw [if_pos h]; exact getPullMetrics_names now it.1 s
  · rw [if_neg h]; exact getIssueMetrics_names now it.1 s

theorem getPullMetrics_secondsToClosePulls (now : Timestamp)
    (pull : GithubPullOrIssue) (s : MetricStores) :
    (getPullMetrics now pull s).secondsToClosePulls =
      (if isPullOrIssueWithinMetricsRange now pull &&
          numberTruthy (getSecondsToClose pull) then
        s.secondsToClosePulls ++ [(getSecondsToClose pull).getD 0]
      else s.secondsToClosePulls) := by
  rcases pull with ⟨u, ca, cl⟩
  cases u with
  | none =>
    by_cases hg : (isPullOrIssueWithinMetricsRange now ⟨none, ca, cl⟩ &&
        numberTruthy (getSecondsToClose ⟨none, ca, cl⟩)) = true <;>
      simp [getPullMetrics, hg]
  | some login =>
    by_cases hb : isContributorABot login = true <;>
      by_cases hr : isPullOrIssueWithinMetricsRange now ⟨some login, ca, cl⟩ = true <;>
        by_cases hg : numberTruthy (getSecondsToClose ⟨some login, ca, cl⟩) = true <;>
          simp [getPullMetrics, hb, hr, hg]

theorem getIssueMetrics_secondsToCloseIssues (now : Timestamp)
    (issue : GithubPullOrIssue) (s : MetricStores) :
    (getIssueMetrics now issue s).secondsToCloseIssues =
      (if isPullOrIssueWithinMetricsRange now issue &&
          numberTruthy (getSecondsToClose issue) then
        s.secondsToCloseIssues ++ [(getSecondsToClose issue).getD 0]
      else s.secondsToCloseIssues) := by
  rcases issue with ⟨u, ca, cl⟩
  cases u with
  | none =>
    by_cases hg : (isPullOrIssueWithinMetricsRange now ⟨none, ca, cl⟩ &&
        numberTruthy (getSecondsToClose ⟨none, ca, cl⟩)) = true <;>
      simp [getIssueMetrics, hg]
  | some login =>
    by_cases hb : isContributorABot login = true <;>
      by_cases hr : isPullOrIssueWithinMetricsRange now ⟨some login, ca, cl⟩ = true <;>
        by_cases hg : numberTruthy (getSecondsToClose ⟨some login, ca, cl⟩) = true <;>
          simp [getIssueMetrics, hb, hr, hg]

theorem getPullMetrics_bucketPullCount (now : Timestamp)
    (pull : GithubPullOrIssue) (s : MetricStores) :
    (getPullMetrics now pull s).bucketPullCount =
      bumpCount s.bucketPullCount (getBucketKey pull) := by
  rcases pull with ⟨u, ca, cl⟩
  cases u with
  | none =>
    by_cases hg : (isPullOrIssueWithinMetricsRange now ⟨none, ca, cl⟩ &&
        numberTruthy (getSecondsToClose ⟨none, ca, cl⟩)) = true <;>
      simp [getPullMetrics, hg]
  | some login =>
    by_cases hb : isContributorABot login = true <;>
      by_cases hr : isPullOrIssueWithinMetricsRange now ⟨some login, ca, cl⟩ = true <;>
        by_cases hg : numberTruthy (getSecondsToClose ⟨some login, ca, cl⟩) = true <;>
          simp [getPullMetrics, hb, hr, hg]

theorem getPullMetrics_bucketNewContributors (now : Timestamp)
    (pull : GithubPullOrIssue) (s : MetricStores) :
    (getPullMetrics now pull s).bucketNewContributors =
      (match itemNonBotAuthor pull with
       | none => s.bucketNewContributors
       | some login =>
         addNewContributorToBucket s.bucketNewContributors (getBucketKey pull) login) := by
  rcases pull with ⟨u, ca, cl⟩
  cases u with
  | none =>
    by_cases hg : (isPullOrIssueWithinMetricsRange now ⟨none, ca, cl⟩ &&
        numberTruthy (getSecondsToClose ⟨none, ca, cl⟩)) = true <;>
      simp [getPullMetrics, itemNonBotAuthor, hg]
  | some login =>
    by_cases hb : isContributorABot login = true <;>
      by_cases hr : isPullOrIssueWithinMetricsRange now ⟨some login, ca, cl⟩ = true <;>
        by_cases hg : numberTruthy (getSecondsToClose ⟨some login, ca, cl⟩) = true <;>
          simp [getPullMetrics, itemNonBotAuthor, hb, hr, hg]

theorem getIssueMetrics_bucketNewContributors (now : Timestamp)
    (issue : GithubPullOrIssue) (s : MetricStores) :
    (getIssueMetrics now issue s).bucketNewContributors =
      (match itemNonBotAuthor issue with
       | none => s.bucketNewContributors
       | some login =>
         addNewContributorToBucket s.bucketNewContributors (getBucketKey issue) login) := by
  rcases issue with ⟨u, ca, cl⟩
  cases u with
  | none =>
    by_cases hg : (isPullOrIssueWithinMetricsRange now ⟨none, ca, cl⟩ &&
        numberTruthy (getSecondsToClose ⟨none, ca, cl⟩)) = true <;>
      simp [getIssueMetrics, itemNonBotAuthor, hg]
  | some login =>
    by_cases hb : isContributorABot login = true <;>
      by_cases hr : isPullOrIssueWithinMetricsRange now ⟨some login, ca, cl⟩ = true <;>
        by_cases hg : numberTruthy (getSecondsToClose ⟨some login, ca, cl⟩) = true <;>
          simp [getIssueMetrics, itemNonBotAuthor, hb, hr, hg]

theorem nonBotAuthors_cons (it : GithubPullOrIssue × Bool)
    (rest : List (GithubPullOrIssue × Bool)) :
    nonBotAuthors (it :: rest) =
      (match itemNonBotAuthor it.1 with
       | none => nonBotAuthors rest
       | some login => login :: nonBotAuthors rest) := by
  unfold nonBotAuthors
  cases h : itemNonBotAuthor it.1 <;> simp [List.filterMap_cons, h]

theorem foldl_processOne_union_mem (now : Timestamp) :
    ∀ (items : List (GithubPullOrIssue × Bool)) (s : MetricStores) (x : String),
      (x ∈ (items.foldl (processOne now) s).namesOfContributors ∨
        x ∈ (items.foldl (processOne now) s).namesOfRecentContributors) ↔
        (x ∈ s.namesOfContributors ∨ x ∈ s.namesOfRecentContributors ∨
          x ∈ nonBotAuthors items) := by
  intro items
  induction items with
  | nil => intro s x; simp [nonBotAuthors]
  | cons it rest ih =>
    intro s x
    rw [List.foldl_cons, ih]
    have hnames := processOne_names now it s
    have h1 : (processOne now s it).namesOfContributors =
        (contribUpdate now it.1 s.namesOfContributors s.namesOfRecentContributors).1 := by
      rw [← hnames]
    have h2 : (processOne now s it).namesOfRecentContributors =
        (contribUpdate now it.1 s.namesOfContributors s.namesOfRecentContributors).2 := by
      rw [← hnames]
    rw [h1, h2, nonBotAuthors_cons]
    unfold contribUpdate
    cases ha : itemNonBotAuthor it.1 with
    | none => simp
    | some login =>
      by_cases hr : isPullOrIssueWithinMetricsRange now it.1 = true <;>
        simp only [hr, if_true, if_false, Bool.false_eq_true, List.mem_cons,
          setAdd_mem] <;>
          tauto

theorem foldl_processOne_recent_nodup (now : Timestamp) :
    ∀ (items : List (GithubPullOrIssue × Bool)) (s : MetricStores),
      s.namesOfRecentContributors.Nodup →
      (items.foldl (processOne now) s).namesOfRecentContributors.Nodup := by
  intro items
  induction items with
  | nil => intro s h; simpa using h
  | cons it rest ih =>
    intro s h
    rw [List.foldl_cons]
    apply ih
    have hnames := processOne_names now it s
    have h2 : (processOne now s it).namesOfRecentContributors =
        (contribUpdate now it.1 s.namesOfContributors s.namesOfRecentContributors).2 := by
      rw [← hnames]
    rw [h2]
    unfold contribUpdate
    cases itemNonBotAuthor it.1 with
    | none => simpa using h
    | some login =>
      by_cases hr : isPullOrIssueWithinMetricsRange now it.1 = true
      · simpa [hr] using setAdd_nodup _ _ h
      · simpa [hr] using h

theorem finalize_fold_fst_mem :
    ∀ (l : List String) (k r : List String) (x : String),
      x ∈ (l.foldl finalizeStep (k, r)).1 ↔ x ∈ k ∨ x ∈ l := by
  intro l
  induction l with
  | nil => intro k r x; simp
  | cons a rest ih =>
    intro k r x
    rw [List.foldl_cons]
    by_cases ha : a ∈ k
    · rw [show finalizeStep (k, r) a = (k, r.erase a) by simp [finalizeStep, ha], ih]
      constructor
      · rintro (h | h)
        · exact Or.inl h
        · exact Or.inr (List.mem_cons_of_mem a h)
      · rintro (h | h)
        · exact Or.inl h
        · rcases List.mem_cons.mp h with rfl | h
          · exact Or.inl ha
          · exact Or.inr h
    · rw [show finalizeStep (k, r) a = (k ++ [a], r) by simp [finalizeStep, ha], ih]
      simp [or_assoc]

theorem finalize_fold_snd_mem :
    ∀ (l : List String), l.Nodup → ∀ (k r : List String), r.Nodup → ∀ x : String,
      (x ∈ (l.foldl finalizeStep (k, r)).2 ↔ x ∈ r ∧ ¬(x ∈ l ∧ x ∈ k)) := by
  intro l
  induction l with
  | nil => intro _ k r _ x; simp
  | cons a rest ih =>
    intro hnd k r hr x
    have hal : a ∉ rest := (List.nodup_cons.mp hnd).1
    have hrest : rest.Nodup := (List.nodup_cons.mp hnd).2
    rw [List.foldl_cons]
    by_cases ha : a ∈ k
    · rw [show finalizeStep (k, r) a = (k, r.erase a) by simp [finalizeStep, ha]]
      rw [ih hrest k (r.erase a) (hr.erase a) x]
      rw [hr.mem_erase_iff]
      by_cases hxa : x = a
      · subst hxa
        simp [ha, hal]
      · simp [hxa]
    · rw [show finalizeStep (k, r) a = (k ++ [a], r) by simp [finalizeStep, ha]]
      rw [ih hrest (k ++ [a]) r hr x]
      by_cases hxa : x = a
      · subst hxa
        simp [hal, ha]
      · simp [hxa]

theorem finalizeContributors_fst_mem (known recent : List String) (x : String) :
    x ∈ (finalizeContributors known recent).1 ↔ x ∈ known ∨ x ∈ recent := by
  unfold finalizeContributors
  exact finalize_fold_fst_mem recent known recent x

theorem finalizeContributors_snd_mem (known recent : List String)
    (hr : recent.Nodup) (x : String) :
    x ∈ (finalizeContributors known recent).2 ↔ x ∈ recent ∧ x ∉ known := by
  unfold finalizeContributors
  rw [finalize_fold_snd_mem recent hr known recent hr x]
  tauto

theorem ensureBucket_count (m : List (String × List String)) (k c : String) :
    authorBucketCount (ensureBucket m k) c = authorBucketCount m c := by
  unfold ensureBucket authorBucketCount
  by_cases hk : k ∈ m.map Prod.fst
  · rw [if_pos hk]
  · rw [if_neg hk, List.countP_append]
    simp

theorem ensureBucket_keys_nodup (m : List (String × List String)) (k : String)
    (h : (m.map Prod.fst).Nodup) : ((ensureBucket m k).map Prod.fst).Nodup := by
  unfold ensureBucket
  by_cases hk : k ∈ m.map Prod.fst
  · rwa [if_pos hk]
  · rw [if_neg hk, List.map_append]
    simp [List.nodup_append, h, hk]

theorem addToBucket_keys (m : List (String × List String)) (k c : String) :
    (addToBucket m k c).map Prod.fst = m.map Prod.fst := by
  induction m with
  | nil => rfl
  | cons p rest ih =>
    simp only [addToBucket, List.map_cons] at ih ⊢
    by_cases hp : p.1 = k <;> simp [hp, ih]

theorem addToBucket_count_ne (m : List (String × List String)) (k c a : String)
    (hne : a ≠ c) :
    authorBucketCount (addToBucket m k c) a = authorBucketCount m a := by
  unfold authorBucketCount addToBucket
  rw [List.countP_map]
  apply List.countP_congr
  intro p _
  by_cases hp : p.1 = k <;> simp [hp, Function.comp, setAdd_mem, hne]

theorem countP_key_le_one (l : List String) (k : String) (h : l.Nodup) :
    l.countP (fun q => decide (q = k)) ≤ 1 := by
  induction l with
  | nil => simp
  | cons a rest ih =>
    rcases List.nodup_cons.mp h with ⟨ha, hrest⟩
    rw [List.countP_cons]
    by_cases hak : a = k
    · subst hak
      have hz : rest.countP (fun q => decide (q = a)) = 0 := by
        rw [List.countP_eq_zero]
        intro q hq
        simp only [decide_eq_true_eq]
        intro e
        exact ha (e ▸ hq)
      simp [hz]
    · simp only [hak]
      simpa [hak] using ih hrest

theorem addToBucket_count_self (m : List (String × List String)) (k c : String)
    (hkeys : (m.map Prod.fst).Nodup) (h : ∀ p ∈ m, c ∉ p.2) :
    authorBucketCount (addToBucket m k c) c ≤ 1 := by
  unfold authorBucketCount addToBucket
  rw [List.countP_map]
  have he : m.countP ((fun p : String × List String => decide (c ∈ p.2)) ∘
      (fun p : String × List String => if p.1 = k then (p.1, setAdd p.2 c) else p)) =
      m.countP (fun p => decide (p.1 = k)) := by
    apply List.countP_congr
    intro p hp
    by_cases hpk : p.1 = k <;> simp [hpk, Function.comp, setAdd_mem, h p hp]
  rw [he]
  have hm : m.countP (fun p => decide (p.1 = k)) =
      (m.map Prod.fst).countP (fun q => decide (q = k)) := by
    rw [List.countP_map]
    rfl
  rw [hm]
  exact countP_key_le_one _ _ hkeys

theorem addNewContributorToBucket_WF (m : List (String × List String))
    (k c : String) (h : BucketsWF m) :
    BucketsWF (addNewContributorToBucket m k c) := by
  obtain ⟨hkeys, hcount⟩ := h
  have hkeys1 := ensureBucket_keys_nodup m k hkeys
  have hcount1 : ∀ a, authorBucketCount (ensureBucket m k) a ≤ 1 :=
    fun a => (ensureBucket_count m k a) ▸ hcount a
  unfold addNewContributorToBucket
  by_cases hany : anyBucketHas (ensureBucket m k) c = true
  · rw [if_pos hany]
    exact ⟨hkeys1, hcount1⟩
  · rw [if_neg hany]
    refine ⟨by rw [addToBucket_keys]; exact hkeys1, fun a => ?_⟩
    by_cases hac : a = c
    · subst hac
      apply addToBucket_count_self _ _ _ hkeys1
      intro p hp
      have := (Bool.not_eq_true _).mp hany
      unfold anyBucketHas at this
      rw [List.any_eq_false] at this
      simpa using this p hp
    · rw [addToBucket_count_ne _ _ _ _ hac]
      exact hcount1 a

theorem processOne_buckets_shape (now : Timestamp) (it : GithubPullOrIssue × Bool)
    (s : MetricStores) :
    (processOne now s it).bucketNewContributors = s.bucketNewContributors ∨
      ∃ c, (processOne now s it).bucketNewContributors =
        addNewContributorToBucket s.bucketNewContributors (getBucketKey it.1) c := by
  unfold processOne
  by_cases h : it.2
  · rw [if_pos h, getPullMetrics_bucketNewContributors]
    cases itemNonBotAuthor it.1 with
    | none => exact Or.inl rfl
    | some login => exact Or.inr ⟨login, rfl⟩
  · rw [if_neg h, getIssueMetrics_bucketNewContributors]
    cases itemNonBotAuthor it.1 with
    | none => exact Or.inl rfl
    | some login => exact Or.inr ⟨login, rfl⟩

theorem foldl_processOne_buckets_WF (now : Timestamp) :
    ∀ (items : List (GithubPullOrIssue × Bool)) (s : MetricStores),
      BucketsWF s.bucketNewContributors →
      BucketsWF (items.foldl (processOne now) s).bucketNewContributors := by
  intro items
  induction items with
  | nil => intro s h; simpa using h
  | cons it rest ih =>
    intro s h
    rw [List.foldl_cons]
    apply ih
    rcases processOne_buckets_shape now it s with heq | ⟨c, heq⟩
    · rwa [heq]
    · rw [heq]
      exact addNewContributorToBucket_WF _ _ _ h

/-! ### Claim theorems -/

/-- Claim C1 (amended): after the single finalization pass, the union of
namesOfContributors and namesOfRecentContributors equals the set of all
non-bot authors seen during the run, and namesOfRecentContributors is a
SUBSET of namesOfContributors (an author active only inside the window is
moved into namesOfContributors without being removed from
namesOfRecentContributors), so the two sets are disjoint only when
namesOfRecentContributors is empty. -/
theorem contributor_sets_after_finalization (now : Timestamp)
    (items : List (GithubPullOrIssue × Bool)) :
    (∀ x : String,
      (x ∈ (finalizeContributors (processAll now items).namesOfContributors
              (processAll now items).namesOfRecentContributors).1 ∨
        x ∈ (finalizeContributors (processAll now items).namesOfContributors
              (processAll now items).namesOfRecentContributors).2) ↔
        x ∈ nonBotAuthors items) ∧
    (∀ x : String,
      x ∈ (finalizeContributors (processAll now items).namesOfContributors
             (processAll now items).namesOfRecentContributors).2 →
      x ∈ (finalizeContributors (processAll now items).namesOfContributors
             (processAll now items).namesOfRecentContributors).1) := by
  have hnodup : (processAll now items).namesOfRecentContributors.Nodup :=
    foldl_processOne_recent_nodup now items initialStores (by simp [initialStores])
  have hunion := foldl_processOne_union_mem now items initialStores
  constructor
  · intro x
    rw [finalizeContributors_fst_mem, finalizeContributors_snd_mem _ _ hnodup]
    have hx := hunion x
    simp only [initialStores, List.not_mem_nil, false_or] at hx
    unfold processAll
    tauto
  · intro x h
    rw [finalizeContributors_snd_mem _ _ hnodup] at h
    rw [finalizeContributors_fst_mem]
    exact Or.inr h.1

/-- Claim C1 counterexample: a run with a single in-window pull by "alice"
leaves "alice" in BOTH finalized sets, so they are not disjoint. -/
theorem contributor_sets_disjointness_fails :
    "alice" ∈ (finalizeContributors
        (processAll 5184000
          [({ user := some "alice", created_at := 5097600, closed_at := none }, true)]).namesOfContributors
        (processAll 5184000
          [({ user := some "alice", created_at := 5097600, closed_at := none }, true)]).namesOfRecentContributors).1 ∧
    "alice" ∈ (finalizeContributors
        (processAll 5184000
          [({ user := some "alice", created_at := 5097600, closed_at := none }, true)]).namesOfContributors
        (processAll 5184000
          [({ user := some "alice", created_at := 5097600, closed_at := none }, true)]).namesOfRecentContributors).2 := by
  decide

/-- Claim C2 (amended): a closure sample is recorded for a work item exactly
when the item is in-window AND `secondsToClose` is truthy — i.e. `closed_at`
is present and the duration is NONZERO. A zero-second closure is dropped by
the JS truthiness guard even when in-window and closed; an item without
`closed_at` has no `closureSeconds` and never contributes; an out-of-window
closure is computed but discarded. -/
theorem closure_sample_recording (now : Timestamp) (item : GithubPullOrIssue)
    (s : MetricStores) :
    (getPullMetrics now item s).secondsToClosePulls =
      (if isPullOrIssueWithinMetricsRange now item &&
          numberTruthy (getSecondsToClose item) then
        s.secondsToClosePulls ++ [(getSecondsToClose item).getD 0]
      else s.secondsToClosePulls) ∧
    (getIssueMetrics now item s).secondsToCloseIssues =
      (if isPullOrIssueWithinMetricsRange now item &&
          numberTruthy (getSecondsToClose item) then
        s.secondsToCloseIssues ++ [(getSecondsToClose item).getD 0]
      else s.secondsToCloseIssues) ∧
    (getSecondsToClose item = none ↔ item.closed_at = none) ∧
    (numberTruthy (getSecondsToClose item) = true ↔
      ∃ d : Int, getSecondsToClose item = some d ∧ d ≠ 0) := by
  refine ⟨getPullMetrics_secondsToClosePulls now item s,
    getIssueMetrics_secondsToCloseIssues now item s, ?_, ?_⟩
  · cases h : item.closed_at <;> simp [getSecondsToClose, h]
  · cases h : getSecondsToClose item with
    | none => simp [numberTruthy]
    | some d => by_cases hd : d = 0 <;> simp [numberTruthy, hd]

/-- Claim C2 counterexample: an in-window pull whose `closed_at` equals its
`created_at` (closure duration 0 s) has `closedAt` present and is in-window,
yet NO sample is added to the pull closure-sample set. -/
theorem closure_sample_zero_duration_dropped :
    isPullOrIssueWithinMetricsRange 5184000
      { user := some "alice", created_at := 5097600, closed_at := some 5097600 } = true ∧
    getSecondsToClose
      { user := some "alice", created_at := 5097600, closed_at := some 5097600 } = some 0 ∧
    (getPullMetrics 5184000
      { user := some "alice", created_at := 5097600, closed_at := some 5097600 }
      initialStores).secondsToClosePulls = [] := by
  decide

/-- Claim C3 (amended): the bucket a work item is counted under is keyed by
`getBucketKey`, the pair "calendar year : ISO week number" of `created_at` —
NOT the ISO week-numbering year the spec names: for late-December dates lying
in ISO week 1 of the following year, the key keeps the old calendar year. -/
theorem bucket_key_assignment (now : Timestamp) (pull : GithubPullOrIssue)
    (s : MetricStores) :
    countForKey (getPullMetrics now pull s).bucketPullCount (getBucketKey pull) =
      countForKey s.bucketPullCount (getBucketKey pull) + 1 ∧
    getBucketKey pull =
      toString (yearOfEpochDay (epochDayOf pull.created_at)) ++ ":" ++
        toString (isoWeekNumber (epochDayOf pull.created_at)) := by
  constructor
  · rw [getPullMetrics_bucketPullCount]
    exact countForKey_bumpCount _ _
  · rfl

/-- Claim C3 counterexample: created_at 2019-12-30T00:00:00Z (epoch second
1577664000) lies in ISO week 1 of ISO week-year 2020, but the script's bucket
key is "2019:1" (calendar year 2019), not the ISO-year key "2020:1". -/
theorem bucket_key_calendar_year_mismatch :
    getBucketKey { user := some "alice", created_at := 1577664000, closed_at := none } =
      "2019:1" ∧
    specIsoBucketKey 1577664000 = "2020:1" ∧
    getBucketKey { user := some "alice", created_at := 1577664000, closed_at := none } ≠
      specIsoBucketKey 1577664000 := by
  decide

/-- Claim C4 (amended): only a PARSE failure of the adopter document is
non-fatal — it is caught and degrades to an empty adopter list, letting the
run proceed to the snapshot. A network failure of the fetch (or of reading
the response body) happens BEFORE the try block, propagates out of
`getAdopterList` and aborts the run: no snapshot is produced. -/
theorem adopter_failure_policy (e content : String)
    (parseYaml : String → Except String (List Contributor)) (s : MetricStores) :
    getAdopterList (Except.error e) parseYaml = Except.error e ∧
    runAdopterPhaseAndSnapshot true (Except.error e) parseYaml s =
      Except.error e ∧
    (parseYaml content = Except.error e →
      getAdopterList (Except.ok content) parseYaml = Except.ok [] ∧
      runAdopterPhaseAndSnapshot true (Except.ok content) parseYaml s =
        Except.ok (buildSnapshot s [])) := by
  refine ⟨rfl, rfl, fun h => ⟨?_, ?_⟩⟩ <;>
    simp [getAdopterList, runAdopterPhaseAndSnapshot, h]

/-- Claim C4 witness: a concrete parse failure degrades to the empty adopter
list and the snapshot is still built. -/
theorem adopter_failure_policy_witness :
    getAdopterList (Except.ok "not yaml") (fun _ => Except.error "bad yaml") =
      Except.ok [] ∧
    runAdopterPhaseAndSnapshot true (Except.ok "not yaml")
      (fun _ => Except.error "bad yaml") initialStores =
      Except.ok (buildSnapshot initialStores []) :=
  (adopter_failure_policy "bad yaml" "not yaml"
    (fun _ => Except.error "bad yaml") initialStores).2.2 rfl

/-- Claim C4 counterexample: a concrete network failure on the fetch is NOT
converted to an empty adopter list — it propagates and the adopter phase
produces no snapshot, so the failure is fatal to the run. -/
theorem adopter_network_error_aborts :
    getAdopterList (Except.error "ECONNRESET") (fun _ => Except.ok []) =
      Except.error "ECONNRESET" ∧
    getAdopterList (Except.error "ECONNRESET") (fun _ => Except.ok []) ≠
      Except.ok [] ∧
    runAdopterPhaseAndSnapshot true (Except.error "ECONNRESET")
      (fun _ => Except.ok []) initialStores = Except.error "ECONNRESET" := by
  refine ⟨rfl, ?_, rfl⟩
  simp [getAdopterList]

/-- Claim C5: every empty sample collection (pull closure seconds, issue
closure seconds, weekly pull counts, weekly new-contributor counts) yields an
absent 50th percentile and an absent mean in the snapshot — never zero and
never an error. -/
theorem empty_samples_absent_statistics (s : MetricStores)
    (adopterList : List String) :
    (s.secondsToClosePulls = [] →
      (buildSnapshot s adopterList).p50SecondsToClosePulls = none ∧
      (buildSnapshot s adopterList).meanSecondsToClosePulls = none) ∧
    (s.secondsToCloseIssues = [] →
      (buildSnapshot s adopterList).p50SecondsToCloseIssues = none ∧
      (buildSnapshot s adopterList).meanSecondsToCloseIssues = none) ∧
    (s.bucketPullCount = [] →
      (buildSnapshot s adopterList).p50NumberOfNewPullsPerWeek = none ∧
      (buildSnapshot s adopterList).meanNumberOfNewPullsPerWeek = none) ∧
    (s.bucketNewContributors = [] →
      (buildSnapshot s adopterList).p50NumberOfNewContributorsPerWeek = none ∧
      (buildSnapshot s adopterList).meanNumberOfNewContributorsPerWeek = none) := by
  refine ⟨fun h => ⟨?_, ?_⟩, fun h => ⟨?_, ?_⟩, fun h => ⟨?_, ?_⟩, fun h => ⟨?_, ?_⟩⟩ <;>
    simp [buildSnapshot, percentile50, meanOf, sortInts, pullCountsOf,
      newContributorCounts, h]

/-- Claim C5 witness: on the all-empty stores every one of the eight summary
statistics is absent. -/
theorem empty_samples_absent_statistics_witness :
    (buildSnapshot initialStores []).p50SecondsToClosePulls = none ∧
    (buildSnapshot initialStores []).meanSecondsToClosePulls = none ∧
    (buildSnapshot initialStores []).p50SecondsToCloseIssues = none ∧
    (buildSnapshot initialStores []).meanSecondsToCloseIssues = none ∧
    (buildSnapshot initialStores []).p50NumberOfNewPullsPerWeek = none ∧
    (buildSnapshot initialStores []).meanNumberOfNewPullsPerWeek = none ∧
    (buildSnapshot initialStores []).p50NumberOfNewContributorsPerWeek = none ∧
    (buildSnapshot initialStores []).meanNumberOfNewContributorsPerWeek = none := by
  obtain ⟨h1, h2, h3, h4⟩ := empty_samples_absent_statistics initialStores []
  exact ⟨(h1 rfl).1, (h1 rfl).2, (h3 rfl).1, (h3 rfl).2, (h2 rfl).1, (h2 rfl).2,
    (h4 rfl).1, (h4 rfl).2⟩

/-- Claim C6: the 30-day window test is a strict less-than on the day
difference — an item created exactly 30 days before `now` is NOT in-window,
while an item created 29 days before `now` is. -/
theorem window_boundary_strict (now : Timestamp) (u : Option String)
    (c29 c30 : Option Timestamp) :
    isPullOrIssueWithinMetricsRange now
      { user := u, created_at := now - 29 * 86400, closed_at := c29 } = true ∧
    isPullOrIssueWithinMetricsRange now
      { user := u, created_at := now - 30 * 86400, closed_at := c30 } = false := by
  constructor <;>
    simp [isPullOrIssueWithinMetricsRange, PAST_DAYS_FOR_METRICS]

/-- Claim C7: over any whole run, every author appears in at most one
bucket's new-contributor set — once attributed to a bucket, the global scan
in addNewContributorToBucket keeps the author out of every other bucket. -/
theorem new_contributor_global_uniqueness (now : Timestamp)
    (items : List (GithubPullOrIssue × Bool)) (author : String) :
    authorBucketCount (processAll now items).bucketNewContributors author ≤ 1 := by
  have hwf : BucketsWF initialStores.bucketNewContributors :=
    ⟨by simp [initialStores], fun c => by simp [initialStores, authorBucketCount]⟩
  exact (foldl_processOne_buckets_WF now items initialStores hwf).2 author

/-- Claim C8 (amended): a bot-authored pull request (suffix "[bot]" or the
deny-list) bumps its bucket's pull count and is subject to the same
closure-sample rule as any item (sampled iff in-window AND the duration is
truthy, i.e. nonzero), but it touches NO contributor structure: the two
contributor name sets and the per-bucket new-contributor sets are unchanged. -/
theorem bot_pull_tracking (now : Timestamp) (pull : GithubPullOrIssue)
    (s : MetricStores) (login : String) (hu : pull.user = some login)
    (hb : isContributorABot login = true) :
    (getPullMetrics now pull s).namesOfContributors = s.namesOfContributors ∧
    (getPullMetrics now pull s).namesOfRecentContributors =
      s.namesOfRecentContributors ∧
    (getPullMetrics now pull s).bucketNewContributors = s.bucketNewContributors ∧
    countForKey (getPullMetrics now pull s).bucketPullCount (getBucketKey pull) =
      countForKey s.bucketPullCount (getBucketKey pull) + 1 ∧
    (getPullMetrics now pull s).secondsToClosePulls =
      (if isPullOrIssueWithinMetricsRange now pull &&
          numberTruthy (getSecondsToClose pull) then
        s.secondsToClosePulls ++ [(getSecondsToClose pull).getD 0]
      else s.secondsToClosePulls) := by
  have hba : itemNonBotAuthor pull = none := by simp [itemNonBotAuthor, hu, hb]
  have h1 : (getPullMetrics now pull s).namesOfContributors =
      s.namesOfContributors := by
    have := congrArg Prod.fst (getPullMetrics_names now pull s)
    simpa [contribUpdate, hba] using this
  have h2 : (getPullMetrics now pull s).namesOfRecentContributors =
      s.namesOfRecentContributors := by
    have := congrArg Prod.snd (getPullMetrics_names now pull s)
    simpa [contribUpdate, hba] using this
  have h3 : (getPullMetrics now pull s).bucketNewContributors =
      s.bucketNewContributors := by
    simp [getPullMetrics_bucketNewContributors, hba]
  have h4 : countForKey (getPullMetrics now pull s).bucketPullCount
      (getBucketKey pull) = countForKey s.bucketPullCount (getBucketKey pull) + 1 := by
    rw [getPullMetrics_bucketPullCount]
    exact countForKey_bumpCount _ _
  exact ⟨h1, h2, h3, h4, getPullMetrics_secondsToClosePulls now pull s⟩

/-- Claim C8 witness: a concrete closed in-window dependabot pull bumps its
bucket's count to 1 and lands its 86400 s closure sample, while every
contributor structure stays empty. -/
theorem bot_pull_tracking_witness :
    (getPullMetrics 5184000
      { user := some "dependabot[bot]", created_at := 5097600, closed_at := some 5184000 }
      initialStores).namesOfContributors = [] ∧
    (getPullMetrics 5184000
      { user := some "dependabot[bot]", created_at := 5097600, closed_at := some 5184000 }
      initialStores).namesOfRecentContributors = [] ∧
    (getPullMetrics 5184000
      { user := some "dependabot[bot]", created_at := 5097600, closed_at := some 5184000 }
      initialStores).bucketNewContributors = [] ∧
    countForKey (getPullMetrics 5184000
      { user := some "dependabot[bot]", created_at := 5097600, closed_at := some 5184000 }
      initialStores).bucketPullCount
      (getBucketKey
        { user := some "dependabot[bot]", created_at := 5097600, closed_at := some 5184000 }) = 1 ∧
    (getPullMetrics 5184000
      { user := some "dependabot[bot]", created_at := 5097600, closed_at := some 5184000 }
      initialStores).secondsToClosePulls = [86400] := by
  have h := bot_pull_tracking 5184000
    { user := some "dependabot[bot]", created_at := 5097600, closed_at := some 5184000 }
    initialStores "dependabot[bot]" rfl (by decide)
  refine ⟨h.1, h.2.1, h.2.2.1, h.2.2.2.1, ?_⟩
  rw [h.2.2.2.2]
  decide

/-- Claim C8 counterexample: a bot-authored pull that is closed and
in-window but whose closure duration is 0 s contributes NO closure-latency
sample, against the claim's "if closed and in-window, contributes a
closure-latency sample". -/
theorem bot_zero_duration_closure_no_sample :
    isContributorABot "dependabot[bot]" = true ∧
    ({ user := some "dependabot[bot]", created_at := 5097600,
        closed_at := some 5097600 } : GithubPullOrIssue).closed_at.isSome = true ∧
    isPullOrIssueWithinMetricsRange 5184000
      { user := some "dependabot[bot]", created_at := 5097600,
        closed_at := some 5097600 } = true ∧
    (getPullMetrics 5184000
      { user := some "dependabot[bot]", created_at := 5097600,
        closed_at := some 5097600 }
      initialStores).secondsToClosePulls = [] := by
  decide

/-- Claim C9: a call with a bucket key not yet present creates that bucket
with an EMPTY set even when the author is already attributed to another
bucket (the early return fires after the bucket is materialized), and the
empty bucket adds a zero entry to the weekly new-contributor count samples
that the snapshot's p50 and mean are computed over. -/
theorem fresh_bucket_empty_set_zero_sample (m : List (String × List String))
    (k c : String) (s : MetricStores) (adopterList : List String)
    (hk : k ∉ m.map Prod.fst) (hc : anyBucketHas m c = true) :
    addNewContributorToBucket m k c = m ++ [(k, [])] ∧
    newContributorCounts (addNewContributorToBucket m k c) =
      newContributorCounts m ++ [0] ∧
    (buildSnapshot s adopterList).p50NumberOfNewContributorsPerWeek =
      percentile50 (newContributorCounts s.bucketNewContributors) ∧
    (buildSnapshot s adopterList).meanNumberOfNewContributorsPerWeek =
      meanOf (newContributorCounts s.bucketNewContributors) := by
  have h1 : ensureBucket m k = m ++ [(k, [])] := by
    simp [ensureBucket, hk]
  have h2 : anyBucketHas (m ++ [(k, [])]) c = true := by
    unfold anyBucketHas at hc ⊢
    simp only [List.any_append, hc, Bool.true_or]
  have heq : addNewContributorToBucket m k c = m ++ [(k, [])] := by
    unfold addNewContributorToBucket
    rw [h1, if_pos h2]
  refine ⟨heq, ?_, rfl, rfl⟩
  rw [heq]
  simp [newContributorCounts]

/-- Claim C9 witness: with "alice" already attributed to bucket "2024:1", a
call for the fresh key "2024:2" leaves "alice" where she is but creates the
empty bucket, and the count samples become [1, 0]. -/
theorem fresh_bucket_empty_set_zero_sample_witness :
    addNewContributorToBucket [("2024:1", ["alice"])] "2024:2" "alice" =
      [("2024:1", ["alice"]), ("2024:2", [])] ∧
    newContributorCounts
      (addNewContributorToBucket [("2024:1", ["alice"])] "2024:2" "alice") =
      [1, 0] := by
  have h := fresh_bucket_empty_set_zero_sample [("2024:1", ["alice"])]
    "2024:2" "alice" initialStores [] (by decide) (by decide)
  exact ⟨h.1, h.2.1⟩

/-- Claim C10: the snapshot field numberOfPullRequestNew is exactly the
length of the pull closure-sample list, and processing one pull grows that
list by one precisely when the pull is in-window and its secondsToClose is
truthy — so an in-window pull without closed_at, or with a recorded duration
of zero, is not counted. -/
theorem numberOfPullRequestNew_counts_samples (s : MetricStores)
    (adopterList : List String) (now : Timestamp) (pull : GithubPullOrIssue) :
    (buildSnapshot s adopterList).numberOfPullRequestNew =
      s.secondsToClosePulls.length ∧
    (getPullMetrics now pull s).secondsToClosePulls.length =
      s.secondsToClosePulls.length +
        (if isPullOrIssueWithinMetricsRange now pull &&
            numberTruthy (getSecondsToClose pull) then 1 else 0) := by
  refine ⟨rfl, ?_⟩
  rw [getPullMetrics_secondsToClosePulls]
  by_cases h : (isPullOrIssueWithinMetricsRange now pull &&
      numberTruthy (getSecondsToClose pull)) = true <;>
    simp [h]
